import Mathlib

/-!
Verification of the MCP streamable-HTTP test client
(`scripts/test-mcp-client.py`) against its specification.

The client is embedded shallowly: Python dict payloads become explicit
records, the mutable `MCPClient` object becomes a state record threaded
through the operations, the external HTTP layer is modelled by passing the
server's `HTTPResponse` as an input, and the external `json.loads` library
function is an explicit parameter `loads : String → Option Json` (`none`
models a raised `json.JSONDecodeError`).  Python string operations
(`strip`, `split`, `startswith`, slicing) are embedded as structural
functions on the character list of a `String`.
-/

/-- JSON values, the universe of `json.loads` results and of payload
fields. -/
inductive Json where
  | null
  | bool (b : Bool)
  | num (n : Int)
  | str (s : String)
  | arr (xs : List Json)
  | obj (fields : List (String × Json))
deriving Repr

/-- Python truthiness of a JSON value (`bool(x)`): `None`, `False`, `0`,
empty string, empty list and empty dict are falsy. -/
def jsonTruthy : Json → Bool
  | Json.null => false
  | Json.bool b => b
  | Json.num n => n != 0
  | Json.str s => !s.data.isEmpty
  | Json.arr xs => !xs.isEmpty
  | Json.obj fs => !fs.isEmpty

/-- Python `params or \x7b\x7d`: an absent or falsy value is replaced by
the empty dict. -/
def pyOrEmpty : Option Json → Json
  | none => Json.obj []
  | some p => if jsonTruthy p then p else Json.obj []

/-- Python truthiness of an optional string (`if self.session_id:`):
`None` and the empty string are falsy. -/
def pyTruthy : Option String → Bool
  | none => false
  | some s => !s.data.isEmpty

/-- Characters stripped by Python `str.strip()` (ASCII whitespace). -/
def stripChars (cs : List Char) : List Char :=
  ((cs.dropWhile Char.isWhitespace).reverse.dropWhile Char.isWhitespace).reverse

/-- Python `s.strip()`. -/
def pyStrip (s : String) : String := ⟨stripChars s.data⟩

/-- Helper for `pySplitNL`: accumulates the current line (reversed). -/
def splitNLAux : List Char → List Char → List String
  | [], acc => [⟨acc.reverse⟩]
  | c :: rest, acc =>
    if c = '\n' then ⟨acc.reverse⟩ :: splitNLAux rest []
    else splitNLAux rest (c :: acc)

/-- Python `s.split('\n')`: the empty string yields `[""]`. -/
def pySplitNL (s : String) : List String := splitNLAux s.data []

/-- Python `s.startswith(p)`. -/
def pyStartsWith (p s : String) : Bool := p.data.isPrefixOf s.data

/-- Python `s[n:]` (drop the first `n` characters). -/
def pyDrop (n : Nat) (s : String) : String := ⟨s.data.drop n⟩

/-- The decode failure raised by `json.loads` / `response.json()`
(`json.JSONDecodeError` in Python). -/
inductive DecodeError where
  | jsonParseError
deriving Repr, DecidableEq

/-- The projection of an HTTP response consumed by the client: the
`Mcp-Session-Id` response header (absent or its string value), the
`Content-Type` response header, and the body text. -/
structure HTTPResponse where
  mcpSessionId : Option String
  contentType : Option String
  text : String

/-- The outgoing HTTP headers built by `_send_request` and
`_send_notification` (lines 25-31 and 67-73 of the source). -/
structure RequestHeaders where
  contentType : String
  accept : String
  mcpSessionId : Option String

/-- The JSON-RPC envelope built by the client: `id = none` models a dict
with no `"id"` key (a notification). -/
structure Payload where
  jsonrpc : String
  id : Option Nat
  method : String
  params : Json

/-- The mutable state of one `MCPClient` instance (lines 13-17). -/
structure MCPClient where
  base_url : String
  endpoint : String
  session_id : Option String
  message_id : Nat

/-- `MCPClient.__init__(base_url)`: endpoint is `base_url + "/mcp"`,
no session, counter at 0. -/
def MCPClient.init (base_url : String) : MCPClient :=
  ⟨base_url, base_url ++ "/mcp", none, 0⟩

/-- `MCPClient._next_id` (lines 19-21): increment the counter and return
it, paired with the updated state. -/
def MCPClient.nextId (c : MCPClient) : Nat × MCPClient :=
  (c.message_id + 1, { c with message_id := c.message_id + 1 })

/-- Lines 25-31 of `_send_request` (identical in `_send_notification`,
lines 67-73): fixed `Content-Type` and `Accept`, and the session header
attached only when the held token is truthy. -/
def buildHeaders (c : MCPClient) : RequestHeaders :=
  ⟨"application/json", "application/json, text/event-stream",
    if pyTruthy c.session_id then c.session_id else none⟩

/-- Scan of the SSE lines (lines 54-58): on the first line starting with
the 6-character marker the remainder is handed to `json.loads`; a parse
failure raises (there is no try/except around line 56).  Falling off the
loop is Python returning `None`. -/
def sseScan (loads : String → Option Json) : List String → Except DecodeError (Option Json)
  | [] => Except.ok none
  | line :: rest =>
    if pyStartsWith "data: " line then
      match loads (pyDrop 6 line) with
      | some d => Except.ok (some d)
      | none => Except.error DecodeError.jsonParseError
    else sseScan loads rest

/-- The transport decoder (lines 51-63 of `_send_request`): when the
`Content-Type` response header is exactly `text/event-stream` the body is
stripped, split on newlines and scanned for a `data: ` line; any other
content type (including an absent header) parses the whole body as one
JSON document via `response.json()`, whose failure raises. -/
def decode (loads : String → Option Json) (contentType : Option String)
    (body : String) : Except DecodeError (Option Json) :=
  if contentType = some "text/event-stream" then
    sseScan loads (pySplitNL (pyStrip body))
  else
    match loads body with
    | some d => Except.ok (some d)
    | none => Except.error DecodeError.jsonParseError

/-- `MCPClient._send_request` (lines 23-63): build headers from the
current state, allocate the next id, build the envelope, perform the POST
(the server's reply is the input `resp`), capture any `Mcp-Session-Id`
response header into the state unconditionally, then decode the body.
Returns the outgoing headers, the outgoing payload, the new state and the
decode outcome. -/
def MCPClient.sendRequest (loads : String → Option Json) (c : MCPClient)
    (method : String) (params : Option Json) (resp : HTTPResponse) :
    RequestHeaders × Payload × MCPClient × Except DecodeError (Option Json) :=
  let headers := buildHeaders c
  let idc := c.nextId
  let payload : Payload := ⟨"2.0", some idc.1, method, pyOrEmpty params⟩
  let c2 : MCPClient :=
    match resp.mcpSessionId with
    | some sid => { idc.2 with session_id := some sid }
    | none => idc.2
  (headers, payload, c2, decode loads resp.contentType resp.text)

/-- `MCPClient._send_notification` (lines 65-82): build headers from the
current state, build an envelope with no id, perform the POST and ignore
the reply entirely — no id allocation, no session capture, no decode. -/
def MCPClient.sendNotification (c : MCPClient) (method : String)
    (params : Option Json) (resp : HTTPResponse) :
    RequestHeaders × Payload × MCPClient :=
  let headers := buildHeaders c
  let payload : Payload := ⟨"2.0", none, method, pyOrEmpty params⟩
  (headers, payload, c)

/-- The literal params dict of the `initialize` request (lines 86-93). -/
def initParams : Json :=
  Json.obj [("protocolVersion", Json.str "2024-11-05"),
            ("capabilities", Json.obj []),
            ("clientInfo", Json.obj [("name", Json.str "python-test-client"),
                                     ("version", Json.str "1.0.0")])]

/-- `MCPClient.initialize` (lines 84-96): send the `initialize` request;
when decoding its response raises inside `_send_request`, the exception
propagates out of `initialize` before line 95 and NO notification is sent
(the id increment and session capture of lines 35 and 46-48 have already
happened, so the state mutations survive); only on a successful decode is
the `notifications/initialized` notification sent, from the state left by
the request, and the first exchange's decoded result returned.  Returns
the request's (headers, payload), the client state afterwards, and either
the propagated decode error or the notification's (headers, payload)
paired with the result. -/
def MCPClient.initializeCall (loads : String → Option Json) (c : MCPClient)
    (resp1 resp2 : HTTPResponse) :
    (RequestHeaders × Payload) × MCPClient ×
      Except DecodeError ((RequestHeaders × Payload) × Option Json) :=
  let q := c.sendRequest loads "initialize" (some initParams) resp1
  match q.2.2.2 with
  | Except.error e => ((q.1, q.2.1), q.2.2.1, Except.error e)
  | Except.ok result =>
    let n := MCPClient.sendNotification q.2.2.1 "notifications/initialized" none resp2
    ((q.1, q.2.1), n.2.2, Except.ok ((n.1, n.2.1), result))

/-- `MCPClient.list_tools` (lines 98-100). -/
def MCPClient.list_tools (loads : String → Option Json) (c : MCPClient)
    (resp : HTTPResponse) :
    RequestHeaders × Payload × MCPClient × Except DecodeError (Option Json) :=
  c.sendRequest loads "tools/list" none resp

/-- `MCPClient.call_tool` (lines 102-107). -/
def MCPClient.call_tool (loads : String → Option Json) (c : MCPClient)
    (name : String) (arguments : Option Json) (resp : HTTPResponse) :
    RequestHeaders × Payload × MCPClient × Except DecodeError (Option Json) :=
  c.sendRequest loads "tools/call"
    (some (Json.obj [("name", Json.str name), ("arguments", pyOrEmpty arguments)]))
    resp

/-- One client call in a trace: a `_send_request` or a `_send_notification`,
each carrying the method, the params and the server's reply to it. -/
inductive ClientCall where
  | req (method : String) (params : Option Json) (resp : HTTPResponse)
  | notif (method : String) (params : Option Json) (resp : HTTPResponse)

/-- Whether a trace element is a `_send_request` call. -/
def isReqB : ClientCall → Bool
  | ClientCall.req _ _ _ => true
  | ClientCall.notif _ _ _ => false

/-- Whether a trace element is a `_send_notification` call. -/
def isNotifB : ClientCall → Bool
  | ClientCall.req _ _ _ => false
  | ClientCall.notif _ _ _ => true

/-- The `Mcp-Session-Id` header of the server reply attached to a call. -/
def respSession : ClientCall → Option String
  | ClientCall.req _ _ r => r.mcpSessionId
  | ClientCall.notif _ _ r => r.mcpSessionId

/-- An outgoing wire message: the headers and the envelope that were sent. -/
structure SentMessage where
  headers : RequestHeaders
  payload : Payload

/-- Execute one call against a client state, yielding the sent message and
the successor state. -/
def stepCall (loads : String → Option Json) (c : MCPClient) :
    ClientCall → SentMessage × MCPClient
  | ClientCall.req m p r =>
    let q := c.sendRequest loads m p r
    (⟨q.1, q.2.1⟩, q.2.2.1)
  | ClientCall.notif m p r =>
    let q := c.sendNotification m p r
    (⟨q.1, q.2.1⟩, q.2.2)

/-- Execute a sequence of calls, collecting the sent messages in order and
the final state. -/
def runCalls (loads : String → Option Json) (c : MCPClient) :
    List ClientCall → List SentMessage × MCPClient
  | [] => ([], c)
  | call :: rest =>
    let s := stepCall loads c call
    let r := runCalls loads s.2 rest
    (s.1 :: r.1, r.2)

/-- Specification view of the SSE scan: the remainder of the first line
starting with `data: `, if any. -/
def firstDataLine : List String → Option String
  | [] => none
  | l :: rest =>
    if pyStartsWith "data: " l then some (pyDrop 6 l) else firstDataLine rest

lemma sseScan_eq_first (loads : String → Option Json) :
    ∀ lines : List String,
      sseScan loads lines =
        match firstDataLine lines with
        | none => Except.ok none
        | some r =>
          match loads r with
          | some d => Except.ok (some d)
          | none => Except.error DecodeError.jsonParseError
  | [] => rfl
  | l :: rest => by
    unfold sseScan firstDataLine
    cases hb : pyStartsWith "data: " l
    · simp only [Bool.false_eq_true, if_false]
      exact sseScan_eq_first loads rest
    · simp only [if_true]

lemma sseScan_no_data (loads : String → Option Json) :
    ∀ lines : List String,
      (∀ l ∈ lines, pyStartsWith "data: " l = false) →
      sseScan loads lines = Except.ok none
  | [], _ => rfl
  | l :: rest, h => by
    unfold sseScan
    rw [h l (List.mem_cons_self l rest)]
    exact sseScan_no_data loads rest (fun x hx => h x (List.mem_cons_of_mem l hx))

/-- A `json.loads` model that rejects every input. -/
def wLoadsNone : String → Option Json := fun _ => none

/-- A `json.loads` model that parses only the two-character document
`\x7b\x7d` (the empty JSON object) and rejects everything else. -/
def ceLoads : String → Option Json :=
  fun s => if s = "\x7b\x7d" then some (Json.obj []) else none

/-- The concrete body of the specification's plain-JSON example. -/
def jsonBody : String :=
  "\x7b\"jsonrpc\":\"2.0\",\"id\":1,\"result\":\x7b\"ok\":true\x7d\x7d"

/-- The JSON document denoted by `jsonBody`. -/
def jsonDoc : Json :=
  Json.obj [("jsonrpc", Json.str "2.0"), ("id", Json.num 1),
            ("result", Json.obj [("ok", Json.bool true)])]

/-- A `json.loads` model that parses exactly `jsonBody` to `jsonDoc`. -/
def c5Loads : String → Option Json :=
  fun s => if s = jsonBody then some jsonDoc else none

/-- C3, counterexample: on an event-stream body whose first `data: ` line
does not parse as JSON while a later `data: ` line does, decoding raises
the parse error instead of skipping to the later line and returning its
object, contradicting the claim that a failed parse does not abort
decoding. -/
theorem c3_counterexample :
    ceLoads "notjson" = none ∧
    ceLoads "\x7b\x7d" = some (Json.obj []) ∧
    decode ceLoads (some "text/event-stream") "data: notjson\ndata: \x7b\x7d" =
      Except.error DecodeError.jsonParseError :=
  ⟨rfl, rfl, rfl⟩

/-- C3 (amended): for every event-stream body the decoder locates the
first line beginning with the 6-character marker `data: `, scanning top to
bottom, and parses only its remainder: a successful parse is returned, a
failed parse aborts decoding with the error propagating to the caller, and
when no such line exists the result is empty. -/
theorem c3_sse_first_data_line_decides (loads : String → Option Json)
    (body : String) :
    decode loads (some "text/event-stream") body =
      match firstDataLine (pySplitNL (pyStrip body)) with
      | none => Except.ok none
      | some r =>
        match loads r with
        | some d => Except.ok (some d)
        | none => Except.error DecodeError.jsonParseError := by
  unfold decode
  rw [if_pos rfl]
  exact sseScan_eq_first loads (pySplitNL (pyStrip body))

/-- C5: for every response with `Content-Type: application/json` whose
body parses as a JSON document, decoding returns that document
unchanged. -/
theorem c5_plain_json_returned_unchanged (loads : String → Option Json)
    (body : String) (d : Json) (h : loads body = some d) :
    decode loads (some "application/json") body = Except.ok (some d) := by
  unfold decode
  rw [if_neg (by decide), h]

/-- C5 witness: the specification's concrete example, the body
`\x7b"jsonrpc":"2.0","id":1,"result":\x7b"ok":true\x7d\x7d` under
`Content-Type: application/json`, decodes to exactly that object. -/
theorem c5_plain_json_returned_unchanged_witness :
    c5Loads jsonBody = some jsonDoc ∧
    decode c5Loads (some "application/json") jsonBody = Except.ok (some jsonDoc) :=
  ⟨rfl, c5_plain_json_returned_unchanged c5Loads jsonBody jsonDoc rfl⟩

/-- C6: for every event-stream body none of whose lines begins with
`data: `, decoding yields the empty result and no error. -/
theorem c6_sse_without_data_yields_none (loads : String → Option Json)
    (body : String)
    (h : ∀ l ∈ pySplitNL (pyStrip body), pyStartsWith "data: " l = false) :
    decode loads (some "text/event-stream") body = Except.ok none := by
  unfold decode
  rw [if_pos rfl]
  exact sseScan_no_data loads (pySplitNL (pyStrip body)) h

/-- C6 witness: the body `event: ping` followed by a blank line has no
`data: ` line and decodes to the empty result. -/
theorem c6_sse_without_data_yields_none_witness :
    (∀ l ∈ pySplitNL (pyStrip "event: ping\n\n"), pyStartsWith "data: " l = false) ∧
    decode wLoadsNone (some "text/event-stream") "event: ping\n\n" = Except.ok none :=
  ⟨by decide, c6_sse_without_data_yields_none wLoadsNone "event: ping\n\n" (by decide)⟩

/-- C7: for every response whose `Content-Type` differs from
`text/event-stream` (including an absent header), decoding parses the
whole body as one JSON document; a parse failure is a hard error. -/
theorem c7_non_sse_takes_json_path (loads : String → Option Json)
    (ct : Option String) (body : String) (h : ct ≠ some "text/event-stream") :
    decode loads ct body =
      match loads body with
      | some d => Except.ok (some d)
      | none => Except.error DecodeError.jsonParseError := by
  unfold decode
  rw [if_neg h]

/-- C7 witness: with no `Content-Type` header and an unparseable body the
JSON path is taken and the parse failure surfaces as a hard error. -/
theorem c7_non_sse_takes_json_path_witness :
    (none : Option String) ≠ some "text/event-stream" ∧
    decode wLoadsNone none "notjson" = Except.error DecodeError.jsonParseError :=
  ⟨by decide, c7_non_sse_takes_json_path wLoadsNone none "notjson" (by decide)⟩

/-- C8: a `_send_notification` call's outcome is independent of the
server's reply (headers and body alike): the reply is discarded without
decode, no error can surface from it, the client state is unchanged, and
the outgoing headers are built from the current state. -/
theorem c8_notification_discards_response (c : MCPClient) (m : String)
    (p : Option Json) (r r' : HTTPResponse) :
    MCPClient.sendNotification c m p r = MCPClient.sendNotification c m p r' ∧
    (MCPClient.sendNotification c m p r).2.2 = c ∧
    (MCPClient.sendNotification c m p r).2.1.id = none ∧
    (MCPClient.sendNotification c m p r).1 = buildHeaders c :=
  ⟨rfl, rfl, rfl, rfl⟩

/-- C9: on a freshly constructed client with no prior calls, `call_tool`
sends a `tools/call` request with envelope id 1, `jsonrpc` 2.0, params
holding the tool name and arguments, and no session header. -/
theorem c9_call_tool_on_fresh_client (loads : String → Option Json)
    (u name : String) (args : Option Json) (resp : HTTPResponse) :
    ((MCPClient.init u).call_tool loads name args resp).1.mcpSessionId = none ∧
    ((MCPClient.init u).call_tool loads name args resp).2.1.jsonrpc = "2.0" ∧
    ((MCPClient.init u).call_tool loads name args resp).2.1.id = some 1 ∧
    ((MCPClient.init u).call_tool loads name args resp).2.1.method = "tools/call" ∧
    ((MCPClient.init u).call_tool loads name args resp).2.1.params =
      Json.obj [("name", Json.str name), ("arguments", pyOrEmpty args)] :=
  ⟨rfl, rfl, rfl, rfl, rfl⟩

lemma stepCall_req_msg (loads : String → Option Json) (c : MCPClient)
    (m : String) (p : Option Json) (r : HTTPResponse) :
    (stepCall loads c (ClientCall.req m p r)).1 =
      ⟨buildHeaders c, ⟨"2.0", some (c.message_id + 1), m, pyOrEmpty p⟩⟩ := rfl

lemma stepCall_notif_msg (loads : String → Option Json) (c : MCPClient)
    (m : String) (p : Option Json) (r : HTTPResponse) :
    (stepCall loads c (ClientCall.notif m p r)).1 =
      ⟨buildHeaders c, ⟨"2.0", none, m, pyOrEmpty p⟩⟩ := rfl

lemma stepCall_notif_state (loads : String → Option Json) (c : MCPClient)
    (m : String) (p : Option Json) (r : HTTPResponse) :
    (stepCall loads c (ClientCall.notif m p r)).2 = c := rfl

lemma stepCall_req_state (loads : String → Option Json) (c : MCPClient)
    (m : String) (p : Option Json) (r : HTTPResponse) :
    (stepCall loads c (ClientCall.req m p r)).2 =
      match r.mcpSessionId with
      | some sid => ⟨c.base_url, c.endpoint, some sid, c.message_id + 1⟩
      | none => ⟨c.base_url, c.endpoint, c.session_id, c.message_id + 1⟩ := by
  cases hr : r.mcpSessionId <;>
    simp [stepCall, MCPClient.sendRequest, MCPClient.nextId, hr]

lemma stepCall_req_message_id (loads : String → Option Json) (c : MCPClient)
    (m : String) (p : Option Json) (r : HTTPResponse) :
    ((stepCall loads c (ClientCall.req m p r)).2).message_id = c.message_id + 1 := by
  rw [stepCall_req_state]
  cases r.mcpSessionId <;> rfl

lemma stepCall_req_session (loads : String → Option Json) (c : MCPClient)
    (m : String) (p : Option Json) (r : HTTPResponse) :
    ((stepCall loads c (ClientCall.req m p r)).2).session_id =
      (match r.mcpSessionId with
       | some sid => some sid
       | none => c.session_id) := by
  rw [stepCall_req_state]
  cases r.mcpSessionId <;> rfl

lemma stepCall_headers (loads : String → Option Json) (c : MCPClient)
    (call : ClientCall) : (stepCall loads c call).1.headers = buildHeaders c := by
  cases call <;> rfl

lemma runCalls_ids (loads : String → Option Json) :
    ∀ (cs : List ClientCall) (c : MCPClient),
      ((runCalls loads c cs).1.filterMap (fun msg => msg.payload.id)) =
        List.range' (c.message_id + 1) (cs.countP isReqB) ∧
      (runCalls loads c cs).2.message_id = c.message_id + cs.countP isReqB ∧
      List.Forall₂ (fun ck msg => isNotifB ck = true → msg.payload.id = none)
        cs (runCalls loads c cs).1
  | [], c => by simp [runCalls]
  | call :: rest, c => by
    cases call with
    | req m p r =>
      obtain ⟨ih1, ih2, ih3⟩ :=
        runCalls_ids loads rest (stepCall loads c (ClientCall.req m p r)).2
      refine ⟨?_, ?_, ?_⟩
      · show ((stepCall loads c (ClientCall.req m p r)).1 ::
            (runCalls loads (stepCall loads c (ClientCall.req m p r)).2 rest).1).filterMap
            (fun msg => msg.payload.id) = _
        rw [List.filterMap_cons, stepCall_req_msg]
        simp only []
        rw [ih1, stepCall_req_message_id,
          List.countP_cons_of_pos isReqB rest (by rfl), List.range'_succ]
      · show (runCalls loads (stepCall loads c (ClientCall.req m p r)).2 rest).2.message_id = _
        rw [ih2, stepCall_req_message_id,
          List.countP_cons_of_pos isReqB rest (by rfl)]
        omega
      · show List.Forall₂ _ (ClientCall.req m p r :: rest)
          ((stepCall loads c (ClientCall.req m p r)).1 ::
            (runCalls loads (stepCall loads c (ClientCall.req m p r)).2 rest).1)
        exact List.Forall₂.cons (fun h => by simp [isNotifB] at h) ih3
    | notif m p r =>
      obtain ⟨ih1, ih2, ih3⟩ := runCalls_ids loads rest c
      refine ⟨?_, ?_, ?_⟩
      · show ((stepCall loads c (ClientCall.notif m p r)).1 ::
            (runCalls loads (stepCall loads c (ClientCall.notif m p r)).2 rest).1).filterMap
            (fun msg => msg.payload.id) = _
        rw [List.filterMap_cons, stepCall_notif_msg, stepCall_notif_state]
        simp only []
        rw [ih1, List.countP_cons_of_neg isReqB rest (by simp [isReqB])]
      · show (runCalls loads (stepCall loads c (ClientCall.notif m p r)).2 rest).2.message_id = _
        rw [stepCall_notif_state, ih2, List.countP_cons_of_neg isReqB rest (by simp [isReqB])]
      · show List.Forall₂ _ (ClientCall.notif m p r :: rest)
          ((stepCall loads c (ClientCall.notif m p r)).1 ::
            (runCalls loads (stepCall loads c (ClientCall.notif m p r)).2 rest).1)
        rw [stepCall_notif_state]
        exact List.Forall₂.cons (fun _ => rfl) ih3

/-- C1: in every trace of calls on a freshly constructed client, the ids
placed in the request envelopes are exactly 1..N in call order (N being
the number of `_send_request` calls), interleaved `_send_notification`
calls place no id in their envelopes, and the counter ends at N, so
notifications never consume an id. -/
theorem c1_request_ids_are_one_to_n (loads : String → Option Json)
    (u : String) (cs : List ClientCall) :
    ((runCalls loads (MCPClient.init u) cs).1.filterMap (fun msg => msg.payload.id)) =
      List.range' 1 (cs.countP isReqB) ∧
    (runCalls loads (MCPClient.init u) cs).2.message_id = cs.countP isReqB ∧
    List.Forall₂ (fun ck msg => isNotifB ck = true → msg.payload.id = none)
      cs (runCalls loads (MCPClient.init u) cs).1 := by
  have h := runCalls_ids loads cs (MCPClient.init u)
  simpa [MCPClient.init] using h

lemma pyTruthy_some_of_ne (t : String) (h : t ≠ "") : pyTruthy (some t) = true := by
  unfold pyTruthy
  cases t with
  | mk d =>
    cases d with
    | nil => exact absurd rfl h
    | cons a as => simp [List.isEmpty]

lemma pyTruthy_some_empty : pyTruthy (some "") = false := rfl

lemma runCalls_append (loads : String → Option Json) :
    ∀ (xs ys : List ClientCall) (c : MCPClient),
      runCalls loads c (xs ++ ys) =
        ((runCalls loads c xs).1 ++ (runCalls loads (runCalls loads c xs).2 ys).1,
         (runCalls loads (runCalls loads c xs).2 ys).2)
  | [], ys, c => by simp [runCalls]
  | x :: xs, ys, c => by
    simp only [List.cons_append, runCalls]
    rw [List.append_eq, runCalls_append loads xs ys (stepCall loads c x).2]

lemma runCalls_length (loads : String → Option Json) :
    ∀ (cs : List ClientCall) (c : MCPClient),
      (runCalls loads c cs).1.length = cs.length
  | [], _ => rfl
  | x :: xs, c => by
    simp only [runCalls, List.length_cons]
    rw [runCalls_length loads xs (stepCall loads c x).2]

lemma buildHeaders_mcpSessionId (c : MCPClient) :
    (buildHeaders c).mcpSessionId =
      (if pyTruthy c.session_id then c.session_id else none) := rfl

lemma stepCall_session_of_safe (loads : String → Option Json) (t : String)
    (c : MCPClient) (call : ClientCall) (hc : c.session_id = some t)
    (hsafe : isNotifB call = true ∨ respSession call = none ∨
      respSession call = some t) :
    (stepCall loads c call).2.session_id = some t := by
  cases call with
  | notif m p r => rw [stepCall_notif_state]; exact hc
  | req m p r =>
    rw [stepCall_req_session]
    rcases hsafe with hn | hr | hr
    · simp [isNotifB] at hn
    · rw [show r.mcpSessionId = none from hr]; exact hc
    · rw [show r.mcpSessionId = some t from hr]

lemma runCalls_session_inv (loads : String → Option Json) (t : String) :
    ∀ (mid : List ClientCall) (c : MCPClient), c.session_id = some t →
      (∀ ck ∈ mid, isNotifB ck = true ∨ respSession ck = none ∨
        respSession ck = some t) →
      (runCalls loads c mid).2.session_id = some t ∧
      ∀ msg ∈ (runCalls loads c mid).1,
        msg.headers.mcpSessionId = (if pyTruthy (some t) then some t else none)
  | [], c, hc, _ => ⟨hc, by simp [runCalls]⟩
  | call :: rest, c, hc, hmid => by
    have hstep : (stepCall loads c call).2.session_id = some t :=
      stepCall_session_of_safe loads t c call hc
        (hmid call (List.mem_cons_self call rest))
    obtain ⟨ih1, ih2⟩ := runCalls_session_inv loads t rest (stepCall loads c call).2
      hstep (fun x hx => hmid x (List.mem_cons_of_mem call hx))
    refine ⟨ih1, ?_⟩
    intro msg hm
    rcases List.mem_cons.mp hm with hh | ht
    · rw [hh, stepCall_headers, buildHeaders_mcpSessionId, hc]
    · exact ih2 msg ht

lemma runCalls_after_capture (loads : String → Option Json) (t : String)
    (c0 : MCPClient) (mid : List ClientCall) (cj : ClientCall)
    (rest : List ClientCall) (hc0 : c0.session_id = some t)
    (h3 : ∀ ck ∈ mid, isNotifB ck = true ∨ respSession ck = none ∨
      respSession ck = some t) :
    ∀ msg ∈ ((runCalls loads c0 (mid ++ cj :: rest)).1.take (mid.length + 1)),
      msg.headers.mcpSessionId = (if pyTruthy (some t) then some t else none) := by
  intro msg hm
  obtain ⟨hM2, hMmsgs⟩ := runCalls_session_inv loads t mid c0 hc0 h3
  have hrl : (runCalls loads c0 mid).1.length = mid.length :=
    runCalls_length loads mid c0
  rw [show (runCalls loads c0 (mid ++ cj :: rest)).1 =
      (runCalls loads c0 mid).1 ++
        ((stepCall loads (runCalls loads c0 mid).2 cj).1 ::
          (runCalls loads (stepCall loads (runCalls loads c0 mid).2 cj).2 rest).1)
    from by rw [runCalls_append loads mid (cj :: rest) c0]; rfl] at hm
  rw [show (runCalls loads c0 mid).1 ++
        ((stepCall loads (runCalls loads c0 mid).2 cj).1 ::
          (runCalls loads (stepCall loads (runCalls loads c0 mid).2 cj).2 rest).1) =
      ((runCalls loads c0 mid).1 ++ [(stepCall loads (runCalls loads c0 mid).2 cj).1]) ++
        (runCalls loads (stepCall loads (runCalls loads c0 mid).2 cj).2 rest).1
    from by simp] at hm
  rw [show mid.length + 1 =
      ((runCalls loads c0 mid).1 ++ [(stepCall loads (runCalls loads c0 mid).2 cj).1]).length
    from by simp [hrl], List.take_left] at hm
  rcases List.mem_append.mp hm with hin | hj
  · exact hMmsgs msg hin
  · rw [List.mem_singleton.mp hj, stepCall_headers, buildHeaders_mcpSessionId, hM2]

lemma runCalls_segment_headers (loads : String → Option Json) (t : String)
    (c : MCPClient) (pre : List ClientCall) (m : String) (p : Option Json)
    (r : HTTPResponse) (mid : List ClientCall) (cj : ClientCall)
    (rest : List ClientCall) (h1 : r.mcpSessionId = some t)
    (h3 : ∀ ck ∈ mid, isNotifB ck = true ∨ respSession ck = none ∨
      respSession ck = some t) :
    ∀ msg ∈ (((runCalls loads c
        (pre ++ ClientCall.req m p r :: (mid ++ cj :: rest))).1.drop
          (pre.length + 1)).take (mid.length + 1)),
      msg.headers.mcpSessionId = (if pyTruthy (some t) then some t else none) := by
  intro msg hm
  have hpl : (runCalls loads c pre).1.length = pre.length :=
    runCalls_length loads pre c
  rw [show (runCalls loads c (pre ++ ClientCall.req m p r :: (mid ++ cj :: rest))).1 =
      (runCalls loads c pre).1 ++
        ((stepCall loads (runCalls loads c pre).2 (ClientCall.req m p r)).1 ::
          (runCalls loads (stepCall loads (runCalls loads c pre).2 (ClientCall.req m p r)).2
            (mid ++ cj :: rest)).1)
    from by rw [runCalls_append loads pre (ClientCall.req m p r :: (mid ++ cj :: rest)) c]; rfl] at hm
  rw [show (runCalls loads c pre).1 ++
        ((stepCall loads (runCalls loads c pre).2 (ClientCall.req m p r)).1 ::
          (runCalls loads (stepCall loads (runCalls loads c pre).2 (ClientCall.req m p r)).2
            (mid ++ cj :: rest)).1) =
      ((runCalls loads c pre).1 ++
        [(stepCall loads (runCalls loads c pre).2 (ClientCall.req m p r)).1]) ++
        (runCalls loads (stepCall loads (runCalls loads c pre).2 (ClientCall.req m p r)).2
          (mid ++ cj :: rest)).1
    from by simp] at hm
  rw [show pre.length + 1 =
      ((runCalls loads c pre).1 ++
        [(stepCall loads (runCalls loads c pre).2 (ClientCall.req m p r)).1]).length
    from by simp [hpl], List.drop_left] at hm
  have hcR : (stepCall loads (runCalls loads c pre).2 (ClientCall.req m p r)).2.session_id =
      some t := by
    rw [stepCall_req_session, h1]
  exact runCalls_after_capture loads t _ mid cj rest hcR h3 msg hm

lemma sendRequest_session (loads : String → Option Json) (c : MCPClient)
    (m : String) (p : Option Json) (r : HTTPResponse) :
    ((c.sendRequest loads m p r).2.2.1).session_id =
      (match r.mcpSessionId with
       | some sid => some sid
       | none => c.session_id) := by
  cases hr : r.mcpSessionId <;> simp [MCPClient.sendRequest, MCPClient.nextId, hr]

/-- Trace used to refute C2: the first request's response supplies the
session token `""`; the follow-up request gets a response with no session
header. -/
def c2ceCalls : List ClientCall :=
  [ClientCall.req "initialize" none ⟨some "", some "application/json", "null"⟩,
   ClientCall.req "tools/list" none ⟨none, some "application/json", "null"⟩]

/-- C2, counterexample: a response supplies the session token `""` (first
conjunct) and the client stores it (third conjunct), yet the subsequent
request carries no session header at all (second conjunct), contradicting
the claim that every subsequent request carries the supplied token. -/
theorem c2_counterexample :
    c2ceCalls.map respSession = [some "", none] ∧
    ((runCalls wLoadsNone (MCPClient.init "http://127.0.0.1:8080") c2ceCalls).1.map
      (fun msg => msg.headers.mcpSessionId)) = [none, none] ∧
    (runCalls wLoadsNone (MCPClient.init "http://127.0.0.1:8080") c2ceCalls).2.session_id =
      some "" :=
  ⟨rfl, rfl, rfl⟩

/-- C2 (amended): once a response to a request supplies a NON-EMPTY
session token, every subsequent outgoing request and notification carries
that exact token in its session header, unchanged, until a later response
supplies a different one, where the intervening calls are notifications
(whose replies are never inspected) or requests whose responses supply no
token or the same token; the client never clears the token. -/
theorem c2_nonempty_token_attached_until_changed (loads : String → Option Json)
    (c : MCPClient) (pre : List ClientCall) (m : String) (p : Option Json)
    (r : HTTPResponse) (mid : List ClientCall) (cj : ClientCall)
    (rest : List ClientCall) (t : String)
    (h1 : r.mcpSessionId = some t) (h2 : t ≠ "")
    (h3 : ∀ ck ∈ mid, isNotifB ck = true ∨ respSession ck = none ∨
      respSession ck = some t) :
    ∀ msg ∈ (((runCalls loads c
        (pre ++ ClientCall.req m p r :: (mid ++ cj :: rest))).1.drop
          (pre.length + 1)).take (mid.length + 1)),
      msg.headers.mcpSessionId = some t := by
  have h := runCalls_segment_headers loads t c pre m p r mid cj rest h1 h3
  rwa [if_pos (pyTruthy_some_of_ne t h2)] at h

/-- Client instance used by the trace witnesses. -/
def wClient : MCPClient := MCPClient.init "http://127.0.0.1:8080"

/-- A response supplying the non-empty session token `tok`. -/
def wRespTok : HTTPResponse := ⟨some "tok", some "application/json", "null"⟩

/-- An intervening notification whose reply supplies a different token,
which the client never looks at. -/
def wMid : List ClientCall :=
  [ClientCall.notif "notifications/initialized" none ⟨some "other", none, ""⟩]

/-- The observed later call. -/
def wCj : ClientCall :=
  ClientCall.req "tools/list" none ⟨none, some "application/json", "null"⟩

/-- C2 witness: on a fresh client whose first request is answered with
token `tok`, the following notification and request both carry `tok`. -/
theorem c2_nonempty_token_attached_until_changed_witness :
    wRespTok.mcpSessionId = some "tok" ∧
    "tok" ≠ "" ∧
    (∀ ck ∈ wMid, isNotifB ck = true ∨ respSession ck = none ∨
      respSession ck = some "tok") ∧
    (∀ msg ∈ (((runCalls wLoadsNone wClient
        (([] : List ClientCall) ++ ClientCall.req "initialize" none wRespTok ::
          (wMid ++ wCj :: ([] : List ClientCall)))).1.drop
            (([] : List ClientCall).length + 1)).take (wMid.length + 1)),
      msg.headers.mcpSessionId = some "tok") :=
  ⟨rfl, by decide, by decide,
    c2_nonempty_token_attached_until_changed wLoadsNone wClient [] "initialize"
      none wRespTok wMid wCj [] "tok" rfl (by decide) (by decide)⟩

/-- C10: when a response to a request supplies the session header with the
empty-string value, the client stores the empty string as its held token,
yet every subsequent request and notification omits the session header
entirely (attachment is guarded by the token's truthiness, not its
presence), as long as later responses supply no token or the empty token
again. -/
theorem c10_empty_token_stored_but_not_attached (loads : String → Option Json)
    (c : MCPClient) (pre : List ClientCall) (m : String) (p : Option Json)
    (r : HTTPResponse) (mid : List ClientCall) (cj : ClientCall)
    (rest : List ClientCall)
    (h1 : r.mcpSessionId = some "")
    (h3 : ∀ ck ∈ mid, isNotifB ck = true ∨ respSession ck = none ∨
      respSession ck = some "") :
    (runCalls loads c (pre ++ [ClientCall.req m p r])).2.session_id = some "" ∧
    ∀ msg ∈ (((runCalls loads c
        (pre ++ ClientCall.req m p r :: (mid ++ cj :: rest))).1.drop
          (pre.length + 1)).take (mid.length + 1)),
      msg.headers.mcpSessionId = none := by
  constructor
  · rw [runCalls_append loads pre [ClientCall.req m p r] c]
    show (stepCall loads (runCalls loads c pre).2 (ClientCall.req m p r)).2.session_id =
      some ""
    rw [stepCall_req_session, h1]
  · have h := runCalls_segment_headers loads "" c pre m p r mid cj rest h1 h3
    rwa [if_neg (by rw [pyTruthy_some_empty]; exact Bool.false_ne_true)] at h

/-- A response supplying the empty-string session token. -/
def wRespEmpty : HTTPResponse := ⟨some "", some "application/json", "null"⟩

/-- An intervening notification with an uninspected reply. -/
def wMidE : List ClientCall :=
  [ClientCall.notif "notifications/initialized" none ⟨none, none, ""⟩]

/-- C10 witness: after a response carrying the empty token, the token
`""` is held but the following notification and request both omit the
session header. -/
theorem c10_empty_token_stored_but_not_attached_witness :
    wRespEmpty.mcpSessionId = some "" ∧
    (∀ ck ∈ wMidE, isNotifB ck = true ∨ respSession ck = none ∨
      respSession ck = some "") ∧
    ((runCalls wLoadsNone wClient
        (([] : List ClientCall) ++ [ClientCall.req "initialize" none wRespEmpty])).2.session_id =
      some "" ∧
    ∀ msg ∈ (((runCalls wLoadsNone wClient
        (([] : List ClientCall) ++ ClientCall.req "initialize" none wRespEmpty ::
          (wMidE ++ wCj :: ([] : List ClientCall)))).1.drop
            (([] : List ClientCall).length + 1)).take (wMidE.length + 1)),
      msg.headers.mcpSessionId = none) :=
  ⟨rfl, by decide,
    c10_empty_token_stored_but_not_attached wLoadsNone wClient [] "initialize"
      none wRespEmpty wMidE wCj [] rfl (by decide)⟩

lemma sendRequest_result (loads : String → Option Json) (c : MCPClient)
    (m : String) (p : Option Json) (r : HTTPResponse) :
    (c.sendRequest loads m p r).2.2.2 = decode loads r.contentType r.text := rfl

lemma initializeCall_eq (loads : String → Option Json) (c : MCPClient)
    (r1 r2 : HTTPResponse) :
    c.initializeCall loads r1 r2 =
      ((buildHeaders c, ⟨"2.0", some (c.message_id + 1), "initialize", initParams⟩),
       (c.sendRequest loads "initialize" (some initParams) r1).2.2.1,
       (match decode loads r1.contentType r1.text with
        | Except.error e => Except.error e
        | Except.ok d =>
          Except.ok
            ((buildHeaders ((c.sendRequest loads "initialize" (some initParams) r1).2.2.1),
              ⟨"2.0", none, "notifications/initialized", Json.obj []⟩), d))) := by
  cases hd : decode loads r1.contentType r1.text with
  | error e =>
    have hq : (c.sendRequest loads "initialize" (some initParams) r1).2.2.2 =
        Except.error e := by
      rw [sendRequest_result, hd]
    simp only [MCPClient.initializeCall, hq]
    rfl
  | ok d =>
    have hq : (c.sendRequest loads "initialize" (some initParams) r1).2.2.2 =
        Except.ok d := by
      rw [sendRequest_result, hd]
    simp only [MCPClient.initializeCall, hq, MCPClient.sendNotification]
    rfl

/-- A `json.loads` model that parses only the document `null`. -/
def wLoadsNull : String → Option Json :=
  fun s => if s = "null" then some Json.null else none

/-- C4, counterexample: when the initialize response supplies the session
token `""` and its body decodes fine, the token is captured and held
(first conjunct) and the `initialized` notification is sent, but it does
not carry the captured token — its session header is absent (second
conjunct) — contradicting the claim that the notification carries the
captured token whenever there is one. -/
theorem c4_counterexample :
    ((MCPClient.init "u").initializeCall wLoadsNull
      ⟨some "", some "application/json", "null"⟩ ⟨none, none, ""⟩).2.1.session_id =
        some "" ∧
    ((MCPClient.init "u").initializeCall wLoadsNull
      ⟨some "", some "application/json", "null"⟩ ⟨none, none, ""⟩).2.2 =
      Except.ok ((⟨"application/json", "application/json, text/event-stream", none⟩,
        ⟨"2.0", none, "notifications/initialized", Json.obj []⟩), some Json.null) :=
  ⟨rfl, rfl⟩

/-- C4 (amended): `initialize()` sends the `initialized` notification
strictly after the initialize response has been received, its session
header processed, and its body decoded successfully; when decoding the
initialize response fails, the error propagates out of `initialize()` and
no notification is sent at all; when the decode succeeds and that response
supplied a non-empty session token, the notification carries exactly that
token, has no id and the `notifications/initialized` method, and
`initialize()` returns the decoded result of the first exchange. -/
theorem c4_notification_after_initialize_response (loads : String → Option Json)
    (c : MCPClient) (r1 r2 : HTTPResponse) (t : String)
    (h1 : r1.mcpSessionId = some t) (h2 : t ≠ "") :
    ((c.initializeCall loads r1 r2).1.2).method = "initialize" ∧
    ((c.initializeCall loads r1 r2).1.2).params = initParams ∧
    (c.initializeCall loads r1 r2).2.2 =
      (match decode loads r1.contentType r1.text with
       | Except.error e => Except.error e
       | Except.ok d =>
         Except.ok ((⟨"application/json", "application/json, text/event-stream", some t⟩,
           ⟨"2.0", none, "notifications/initialized", Json.obj []⟩), d)) := by
  have hs : ((c.sendRequest loads "initialize" (some initParams) r1).2.2.1).session_id =
      some t := by
    rw [sendRequest_session, h1]
  have hb : buildHeaders ((c.sendRequest loads "initialize" (some initParams) r1).2.2.1) =
      ⟨"application/json", "application/json, text/event-stream", some t⟩ := by
    unfold buildHeaders
    rw [hs, if_pos (pyTruthy_some_of_ne t h2)]
  rw [initializeCall_eq]
  simp only [hb]
  exact ⟨trivial, trivial, trivial⟩

/-- C4 witness: a fresh client whose initialize response carries the token
`tok` and the body `null` sends the `initialized` notification with that
token attached and returns the decoded first exchange. -/
theorem c4_notification_after_initialize_response_witness :
    wRespTok.mcpSessionId = some "tok" ∧
    "tok" ≠ "" ∧
    (((MCPClient.init "u").initializeCall wLoadsNull wRespTok ⟨none, none, ""⟩).1.2).method =
      "initialize" ∧
    ((MCPClient.init "u").initializeCall wLoadsNull wRespTok ⟨none, none, ""⟩).2.2 =
      Except.ok ((⟨"application/json", "application/json, text/event-stream", some "tok"⟩,
        ⟨"2.0", none, "notifications/initialized", Json.obj []⟩), some Json.null) :=
  ⟨rfl, by decide,
    (c4_notification_after_initialize_response wLoadsNull (MCPClient.init "u")
      wRespTok ⟨none, none, ""⟩ "tok" rfl (by decide)).1,
    (c4_notification_after_initialize_response wLoadsNull (MCPClient.init "u")
      wRespTok ⟨none, none, ""⟩ "tok" rfl (by decide)).2.2⟩
